import Mathlib

/-!
Verification development for the trading backend
(`src/server.js` = TradingServer + TradingService, `src/brokers/ZerodhaBroker.js`,
`src/models/TradingSession.js`).

The JavaScript source is shallowly embedded: each method becomes a pure Lean
function on an explicit state; asynchronous interleaving is modelled by a step
relation cut at the `await` points of the source; remote calls are counted
explicitly (handshakes, order dispatches, wire subscribe batches) so that
claims about "how many network calls happen" become arithmetic on the result.
Errors thrown in JavaScript become `Except.error` carrying the exact message
string built by the source.
-/

deriving instance DecidableEq for Except

namespace TradingBackend

/-! ### Sessions (`src/models/TradingSession.js`)

A `TradingSession` document; only the fields the embedded operations read are
modelled (`accessToken`, `isActive`, `expiresAt`).  Time is a `Nat` (epoch
milliseconds); `new Date()` becomes an explicit `now` argument. -/

structure Session where
  accessToken : String
  isActive : Bool
  expiresAt : Nat
deriving Repr, DecidableEq

/-- One stored session document, keyed by `userId` and `brokerType`. -/
structure SessionRec where
  userId : String
  brokerType : String
  session : Session
deriving Repr, DecidableEq

/-- Embeds `tradingSessionSchema.statics.findActiveSession` (TradingSession.js
lines 65-72): `findOne({userId, brokerType, isActive: true, expiresAt: {$gt: new Date()}})`.
`List.find?` models Mongo returning the first matching document. -/
def findActiveSession (store : List SessionRec) (u bt : String) (now : Nat) :
    Option Session :=
  (store.find? (fun r =>
    r.userId == u && r.brokerType == bt && r.session.isActive
      && decide (now < r.session.expiresAt))).map (·.session)

/-- Embeds `tradingSessionSchema.statics.cleanupExpiredSessions`:
`updateMany({expiresAt: {$lte: new Date()}}, {$set: {isActive: false}})`. -/
def dbCleanupExpiredSessions (store : List SessionRec) (now : Nat) :
    List SessionRec :=
  store.map (fun r =>
    if r.session.expiresAt ≤ now then
      { r with session := { r.session with isActive := false } }
    else r)

/-- Specification-side predicate, written from the spec's words ("a Session is
usable only while active=true and expiresAt is in the future"): some stored
session for `(u, bt)` is active and unexpired at `now`.  Used to compare the
sweep's eviction decisions against the spec's "missing, inactive, or expired". -/
def sessionValidSpec (store : List SessionRec) (u bt : String) (now : Nat) : Prop :=
  ∃ r ∈ store, r.userId = u ∧ r.brokerType = bt ∧
    r.session.isActive = true ∧ now < r.session.expiresAt

instance sessionValidSpec.dec (store : List SessionRec) (u bt : String) (now : Nat) :
    Decidable (sessionValidSpec store u bt now) :=
  List.decidableBEx _ store

theorem findActiveSession_isSome_iff (store : List SessionRec) (u bt : String)
    (now : Nat) :
    (findActiveSession store u bt now).isSome ↔ sessionValidSpec store u bt now := by
  have hmap : ∀ (o : Option SessionRec), (o.map (·.session)).isSome = o.isSome := by
    intro o; cases o <;> rfl
  simp only [findActiveSession, sessionValidSpec, hmap, List.find?_isSome,
    Bool.and_eq_true, beq_iff_eq, decide_eq_true_eq]
  tauto

theorem findActiveSession_eq_none_iff (store : List SessionRec) (u bt : String)
    (now : Nat) :
    findActiveSession store u bt now = none ↔ ¬ sessionValidSpec store u bt now := by
  rw [← findActiveSession_isSome_iff]
  cases findActiveSession store u bt now <;> simp

/-- Marking already-expired sessions inactive (what the bulk `updateMany` does)
changes no session's validity at `now`: a session it touches was already
invalid because its `expiresAt` is not in the future. -/
theorem sessionValidSpec_dbCleanup (store : List SessionRec) (u bt : String)
    (now : Nat) :
    sessionValidSpec (dbCleanupExpiredSessions store now) u bt now ↔
      sessionValidSpec store u bt now := by
  constructor
  · rintro ⟨r, hr, h1, h2, h3, h4⟩
    simp only [dbCleanupExpiredSessions, List.mem_map] at hr
    obtain ⟨r0, hr0, heq⟩ := hr
    by_cases hexp : r0.session.expiresAt ≤ now
    · rw [if_pos hexp] at heq
      subst heq
      simp at h3
    · rw [if_neg hexp] at heq
      subst heq
      exact ⟨r0, hr0, h1, h2, h3, h4⟩
  · rintro ⟨r, hr, h1, h2, h3, h4⟩
    refine ⟨r, ?_, h1, h2, h3, h4⟩
    simp only [dbCleanupExpiredSessions, List.mem_map]
    exact ⟨r, hr, by rw [if_neg (Nat.not_le.mpr h4)]⟩

/-! ### JavaScript string helpers

`sessionKey` embeds the template literal `` `${userId}_${brokerType}` `` used
by TradingService; `splitKey` embeds `key.split('_')` followed by the
destructuring `const [userId, brokerType] = ...`, which takes the first two
groups (a missing group destructures to `undefined`, modelled as `""`). -/

def sessionKey (u bt : String) : String := u ++ "_" ++ bt

/-- Splits a character list at every occurrence of `c`, like
`String.prototype.split` (always returns at least one group). -/
def splitOnCharAux (c : Char) : List Char → List (List Char)
  | [] => [[]]
  | x :: xs =>
    let r := splitOnCharAux c xs
    if x = c then [] :: r else (x :: r.headI) :: r.tail

def splitKey (k : String) : String × String :=
  match (splitOnCharAux '_' k.data).map (fun l => String.mk l) with
  | [] => ("", "")
  | [a] => (a, "")
  | a :: b :: _ => (a, b)

theorem splitOnCharAux_not_mem (c : Char) (l : List Char) (hl : c ∉ l) :
    splitOnCharAux c l = [l] := by
  induction l with
  | nil => simp [splitOnCharAux]
  | cons x xs ih =>
    have hx : x ≠ c := fun h => hl (h ▸ List.mem_cons_self x xs)
    have hxs : c ∉ xs := fun h => hl (List.mem_cons_of_mem x h)
    simp [splitOnCharAux, ih hxs, hx]

theorem splitOnCharAux_append_not_mem (c : Char) (l r : List Char)
    (hl : c ∉ l) :
    splitOnCharAux c (l ++ c :: r) = l :: splitOnCharAux c r := by
  induction l with
  | nil => simp [splitOnCharAux]
  | cons x xs ih =>
    have hx : x ≠ c := fun h => hl (h ▸ List.mem_cons_self x xs)
    have hxs : c ∉ xs := fun h => hl (List.mem_cons_of_mem x h)
    simp [splitOnCharAux, ih hxs, hx]

/-- When neither component contains an underscore (userIds are Mongo ObjectId
hex strings, broker types come from the schema enum), decoding the map key
recovers the pair exactly — the round trip TradingService relies on in
`cleanupExpiredSessions`. -/
theorem splitKey_sessionKey (u bt : String) (hu : '_' ∉ u.data)
    (hbt : '_' ∉ bt.data) :
    splitKey (sessionKey u bt) = (u, bt) := by
  obtain ⟨ud⟩ := u
  obtain ⟨btd⟩ := bt
  have hdata : (sessionKey ⟨ud⟩ ⟨btd⟩).data = ud ++ '_' :: btd := by
    simp [sessionKey, String.data_append]
  simp only [splitKey, hdata, splitOnCharAux_append_not_mem _ _ _ hu,
    splitOnCharAux_not_mem _ _ hbt, List.map]

/-! ### ZerodhaBroker (`src/brokers/ZerodhaBroker.js`)

One broker instance.  `id` models JavaScript object identity: the factory
hands out a fresh `id` per `new ZerodhaBroker(...)`, so two instances created
by separate constructor calls are distinguishable even when their fields
agree, exactly as two object references are in the source.  The `KiteTicker`
is the streaming sub-channel; `subscribedInstruments` is the `Set` kept in the
constructor.  Remote effects are returned as counts or batch lists rather
than performed. -/

structure KiteTicker where
  apiKey : String
  tickerToken : String
deriving Repr, DecidableEq

structure ZerodhaBroker where
  id : Nat
  apiKey : String
  apiSecret : String
  isConnected : Bool
  ticker : Option KiteTicker
  accessToken : Option String
  subscribedInstruments : List Nat
deriving Repr, DecidableEq

/-- Embeds the constructor (ZerodhaBroker.js lines 5-14): fresh instance,
`ticker = null`, `accessToken = null`, `subscribedInstruments = new Set()`. -/
def ZerodhaBroker.new (id : Nat) (apiKey apiSecret : String) : ZerodhaBroker :=
  { id := id, apiKey := apiKey, apiSecret := apiSecret, isConnected := false,
    ticker := none, accessToken := none, subscribedInstruments := [] }

def ZerodhaBroker.setAccessToken (b : ZerodhaBroker) (tok : String) : ZerodhaBroker :=
  { b with accessToken := some tok }

/-- Embeds `connect()` (lines 16-34).  The second component counts connect
handshakes (the `kc.getProfile()` test call).  The remote profile call is
assumed to succeed; claims never depend on a failing handshake. -/
def ZerodhaBroker.connect (b : ZerodhaBroker) :
    Except String ZerodhaBroker × Nat :=
  match b.accessToken with
  | none => (.error "Access token not set. Please authenticate first.", 0)
  | some _ => (.ok { b with isConnected := true }, 1)

/-- Embeds `disconnect()` (lines 36-51).  `tickerThrows` models the underlying
`this.ticker.disconnect()` call erroring.  Crucially, when it throws the
source's `catch` rethrows a wrapped error BEFORE the lines `this.ticker = null`
/ `this.isConnected = false` / `this.accessToken = null` run, so the state is
returned unchanged alongside the error. -/
def ZerodhaBroker.disconnect (b : ZerodhaBroker) (tickerThrows : Bool) :
    Except String Unit × ZerodhaBroker :=
  match b.ticker with
  | some _ =>
    if tickerThrows then
      (.error "Failed to disconnect from Zerodha: ticker disconnect failed", b)
    else
      (.ok (), { b with ticker := none, isConnected := false, accessToken := none })
  | none => (.ok (), { b with isConnected := false, accessToken := none })

/-- Embeds `connectWebSocket()` (lines 127-166): requires an access token,
creates a fresh `KiteTicker`, registers handlers and calls `ticker.connect()`.
The third component is the list of wire subscribe batches issued during the
call — the source issues none (no resubscription of `subscribedInstruments`
happens on connect). -/
def ZerodhaBroker.connectWebSocket (b : ZerodhaBroker) :
    Except String Unit × ZerodhaBroker × List (List Nat) :=
  match b.accessToken with
  | none => (.error "Access token not set for WebSocket connection", b, [])
  | some tok =>
    (.ok (), { b with ticker := some { apiKey := b.apiKey, tickerToken := tok } }, [])

/-- A JavaScript `Set.add`: appends only when absent (insertion order kept). -/
def addInstrument (s : List Nat) (i : Nat) : List Nat :=
  if i ∈ s then s else s ++ [i]

def addInstruments (s : List Nat) (ids : List Nat) : List Nat :=
  ids.foldl addInstrument s

/-- Embeds `subscribeToTicker(instruments)` (lines 168-193): throws
"WebSocket not connected" when `this.ticker` is null; otherwise issues one
wire subscribe batch (`ticker.subscribe`) and adds every id to the `Set`.
The third component lists the wire batches issued. -/
def ZerodhaBroker.subscribeToTicker (b : ZerodhaBroker) (ids : List Nat) :
    Except String (List Nat) × ZerodhaBroker × List (List Nat) :=
  match b.ticker with
  | none => (.error "WebSocket not connected", b, [])
  | some _ =>
    (.ok ids,
     { b with subscribedInstruments := addInstruments b.subscribedInstruments ids },
     [ids])

/-- Embeds `placeOrder(orderParams)` at the broker level (lines 100-107):
`_ensureConnected()` then one `kc.placeOrder` dispatch.  The second component
counts order dispatches to the remote service. -/
def ZerodhaBroker.brokerPlaceOrder (b : ZerodhaBroker) :
    Except String Unit × Nat :=
  if b.isConnected && b.accessToken.isSome then (.ok (), 1)
  else (.error "Broker not connected. Please authenticate first.", 0)

theorem mem_addInstrument (s : List Nat) (i a : Nat) :
    a ∈ addInstrument s i ↔ a ∈ s ∨ a = i := by
  unfold addInstrument
  split <;> rename_i h <;> simp
  intro hx
  exact hx ▸ h

theorem addInstrument_eq_self (s : List Nat) (i : Nat) (h : i ∈ s) :
    addInstrument s i = s := by
  simp [addInstrument, h]

theorem addInstruments_eq_self (s : List Nat) (ids : List Nat)
    (h : ∀ i ∈ ids, i ∈ s) : addInstruments s ids = s := by
  induction ids with
  | nil => rfl
  | cons x xs ih =>
    have hx : x ∈ s := h x (List.mem_cons_self x xs)
    simp only [addInstruments, List.foldl_cons, addInstrument_eq_self s x hx]
    exact ih (fun i hi => h i (List.mem_cons_of_mem x hi))

theorem mem_addInstruments (s ids : List Nat) (a : Nat) :
    a ∈ addInstruments s ids ↔ a ∈ s ∨ a ∈ ids := by
  induction ids generalizing s with
  | nil => simp [addInstruments]
  | cons x xs ih =>
    simp only [addInstruments, List.foldl_cons] at *
    rw [ih (addInstrument s x), mem_addInstrument]
    simp
    tauto

/-- Adding a batch of ids twice leaves the set exactly as adding it once:
the JavaScript `Set` is idempotent on duplicates. -/
theorem addInstruments_idem (s ids : List Nat) :
    addInstruments (addInstruments s ids) ids = addInstruments s ids := by
  refine addInstruments_eq_self _ _ (fun i hi => ?_)
  exact (mem_addInstruments s ids i).mpr (Or.inr hi)

/-! ### TradingService (`src/services/TradingService.js`)

The pool: `activeBrokers` embeds the `Map` keyed by `` `${userId}_${brokerType}` ``
as an insertion-ordered association list (JavaScript `Map` iterates in
insertion order); `nextBrokerId` supplies object identities to the factory. -/

structure TSState where
  activeBrokers : List (String × ZerodhaBroker)
  nextBrokerId : Nat
deriving Repr, DecidableEq

/-- JavaScript `Map.get` / `Map.has`. -/
def mapGet (m : List (String × ZerodhaBroker)) (k : String) : Option ZerodhaBroker :=
  (m.find? (fun e => e.1 == k)).map (·.2)

/-- JavaScript `Map.set`: overwrites in place, or appends a new entry. -/
def mapSet (m : List (String × ZerodhaBroker)) (k : String) (v : ZerodhaBroker) :
    List (String × ZerodhaBroker) :=
  if m.any (fun e => e.1 == k) then
    m.map (fun e => if e.1 == k then (e.1, v) else e)
  else m ++ [(k, v)]

theorem mapGet_mapSet_self (m : List (String × ZerodhaBroker)) (k : String)
    (v : ZerodhaBroker) : mapGet (mapSet m k v) k = some v := by
  unfold mapGet mapSet
  by_cases h : m.any (fun e => e.1 == k)
  · rw [if_pos h]
    induction m with
    | nil => simp at h
    | cons e es ih =>
      by_cases he : e.1 == k
      · simp [List.find?, he]
      · simp only [List.any_cons, he, Bool.false_or] at h
        simpa [List.find?, he] using ih h
  · rw [if_neg h]
    rw [List.any_eq_true] at h
    push_neg at h
    induction m with
    | nil => simp [List.find?]
    | cons e es ih =>
      have he : ¬ (e.1 == k) = true := h e (List.mem_cons_self e es)
      simp only [List.cons_append, List.find?, he]
      exact ih (fun x hx => h x (List.mem_cons_of_mem e hx))

/-- Embeds `String.prototype.toLowerCase` for the factory's
`brokerType.toLowerCase()` switch. -/
def jsToLower (s : String) : String := String.mk (s.data.map Char.toLower)

/-- Embeds `getBrokerConfig(brokerType)` (TradingService.js lines 629-639):
only `'zerodha'` is configured; anything else throws. -/
def getBrokerConfig (bt : String) : Except String (String × String) :=
  if bt == "zerodha" then .ok ("KITE_API_KEY", "KITE_API_SECRET")
  else .error ("Unsupported broker: " ++ bt)

/-- Embeds `BrokerFactory.createBroker` (BrokerFactory.js lines 4-17): the
`switch (brokerType.toLowerCase())` with only the `'zerodha'` case present.
`id` is the fresh object identity for the `new ZerodhaBroker(config)`. -/
def createBroker (id : Nat) (bt : String) (cfg : String × String) :
    Except String ZerodhaBroker :=
  if jsToLower bt == "zerodha" then .ok (ZerodhaBroker.new id cfg.1 cfg.2)
  else .error ("Unsupported broker type: " ++ bt)

/-- Embeds `TradingService.getBrokerInstance(userId, brokerType)`
(TradingService.js lines 417-449) run to completion with no interleaving.
Result, updated pool state, and the number of connect handshakes performed.
There is no per-key lock in the source: the function just checks the `Map`,
awaits the session lookup, creates and connects a broker, then caches it. -/
def getBrokerInstance (st : TSState) (store : List SessionRec) (now : Nat)
    (u bt : String) : Except String ZerodhaBroker × TSState × Nat :=
  let key := sessionKey u bt
  match mapGet st.activeBrokers key with
  | some b => (.ok b, st, 0)
  | none =>
    match findActiveSession store u bt now with
    | none =>
      (.error ("Failed to get broker instance: No active " ++ bt ++ " session found"),
       st, 0)
    | some sess =>
      match getBrokerConfig bt with
      | .error e => (.error ("Failed to get broker instance: " ++ e), st, 0)
      | .ok cfg =>
        match createBroker st.nextBrokerId bt cfg with
        | .error e => (.error ("Failed to get broker instance: " ++ e), st, 0)
        | .ok b0 =>
          if bt == "zerodha" then
            let b1 := b0.setAccessToken sess.accessToken
            match b1.connect with
            | (.ok b2, h) =>
              (.ok b2,
               { activeBrokers := mapSet st.activeBrokers key b2,
                 nextBrokerId := st.nextBrokerId + 1 }, h)
            | (.error e, h) =>
              (.error ("Failed to get broker instance: " ++ e),
               { st with nextBrokerId := st.nextBrokerId + 1 }, h)
          else
            (.ok b0,
             { activeBrokers := mapSet st.activeBrokers key b0,
               nextBrokerId := st.nextBrokerId + 1 }, 0)

/-! ### Order validation (`TradingService.validateOrderParams`, lines 641-673)

Field presence is the JavaScript truthiness test `!orderParams[field]`:
`undefined`, the empty string and the number 0 all count as missing. -/

structure OrderParams where
  variety : Option String
  exchange : Option String
  tradingsymbol : Option String
  transaction_type : Option String
  quantity : Option Nat
  product : Option String
  order_type : Option String
deriving Repr, DecidableEq

def truthyS : Option String → Bool
  | none => false
  | some s => !(s == "")

def truthyN : Option Nat → Bool
  | none => false
  | some q => !(q == 0)

/-- Embeds `validateOrderParams(brokerType, orderParams)`: returns the thrown
message, or `none` when validation passes.  Required-field checks run in
source order, then the four enum checks. -/
def validateOrderParams (bt : String) (p : OrderParams) : Option String :=
  if bt == "zerodha" then
    if !truthyS p.variety then some "Missing required field: variety"
    else if !truthyS p.exchange then some "Missing required field: exchange"
    else if !truthyS p.tradingsymbol then some "Missing required field: tradingsymbol"
    else if !truthyS p.transaction_type then some "Missing required field: transaction_type"
    else if !truthyN p.quantity then some "Missing required field: quantity"
    else if !truthyS p.product then some "Missing required field: product"
    else if !truthyS p.order_type then some "Missing required field: order_type"
    else if !([some "regular", some "bo", some "co", some "iceberg",
               some "auction"].contains p.variety) then
      some "Invalid variety. Must be one of: regular, bo, co, iceberg, auction"
    else if !([some "BUY", some "SELL"].contains p.transaction_type) then
      some "Invalid transaction_type. Must be one of: BUY, SELL"
    else if !([some "CNC", some "MIS", some "NRML"].contains p.product) then
      some "Invalid product. Must be one of: CNC, MIS, NRML"
    else if !([some "MARKET", some "LIMIT", some "SL",
               some "SL-M"].contains p.order_type) then
      some "Invalid order_type. Must be one of: MARKET, LIMIT, SL, SL-M"
    else none
  else none

/-- Embeds `TradingService.placeOrder(userId, brokerType, orderParams)`
(lines 492-503): get (or create) the broker, validate, then dispatch.
Result components: outcome, pool state, connect handshakes performed,
order dispatches sent to the remote service. -/
def tsPlaceOrder (st : TSState) (store : List SessionRec) (now : Nat)
    (u bt : String) (p : OrderParams) :
    Except String Unit × TSState × Nat × Nat :=
  match getBrokerInstance st store now u bt with
  | (.error e, st', h) => (.error ("Failed to place order: " ++ e), st', h, 0)
  | (.ok b, st', h) =>
    match validateOrderParams bt p with
    | some msg => (.error ("Failed to place order: " ++ msg), st', h, 0)
    | none =>
      match b.brokerPlaceOrder with
      | (.ok _, d) => (.ok (), st', h, d)
      | (.error e, d) => (.error ("Failed to place order: " ++ e), st', h, d)

/-! ### Sweep (`TradingService.cleanupExpiredSessions`, lines 607-626)

The loop over `this.activeBrokers.entries()`; `failKeys` names the cache keys
whose broker's `disconnect()` throws (see `ZerodhaBroker.disconnect`: the
ticker disconnect erroring).  A throw propagates to the outer `catch`, which
logs and returns `undefined` — modelled as `none` — and the loop never reaches
the remaining entries; the failing entry itself is also kept, because the
`delete` after the failed `await broker.disconnect()` never runs. -/

def sweepEntries (store : List SessionRec) (now : Nat) (failKeys : List String) :
    List (String × ZerodhaBroker) → Bool × List (String × ZerodhaBroker)
  | [] => (true, [])
  | (k, b) :: rest =>
    match findActiveSession store (splitKey k).1 (splitKey k).2 now with
    | some _ =>
      let r := sweepEntries store now failKeys rest
      (r.1, (k, b) :: r.2)
    | none =>
      if k ∈ failKeys then (false, (k, b) :: rest)
      else sweepEntries store now failKeys rest

/-- Embeds the whole of `cleanupExpiredSessions`: first the bulk
`TradingSession.cleanupExpiredSessions()` update, then the cache walk.
Returns `some ()` for the normal `{ success: true }` return, or `none` for
the swallowed-error return (`undefined`), plus the new pool state and the
post-update session store. -/
def tsCleanupExpiredSessions (st : TSState) (store : List SessionRec) (now : Nat)
    (failKeys : List String) : Option Unit × TSState × List SessionRec :=
  let store2 := dbCleanupExpiredSessions store now
  let r := sweepEntries store2 now failKeys st.activeBrokers
  ((if r.1 then some () else none), { st with activeBrokers := r.2 }, store2)

/-! ### Interleaved executions of `getBrokerInstance`

`getBrokerInstance` is `async`; its body is cut at the two `await` points
(the `findActiveSession` database read and the `broker.connect()` handshake)
into three atomic segments.  A caller's continuation between segments is a
`CallPhase`; a schedule is the order in which the event loop resumes callers.
The shared state is the pool plus a global handshake counter. -/

inductive CallPhase where
  | start : CallPhase
  | afterFind : Option Session → CallPhase
  | afterConnect : ZerodhaBroker → CallPhase
  | done : Except String ZerodhaBroker → CallPhase
deriving Repr, DecidableEq

structure ConcCaller where
  u : String
  bt : String
  phase : CallPhase
deriving Repr, DecidableEq

structure ConcState where
  pool : TSState
  handshakes : Nat
  callers : List ConcCaller
deriving Repr, DecidableEq

/-- One segment of `getBrokerInstance` for one caller.
`start`: the synchronous prefix — cache check, then starting the session
lookup (the store is immutable during a run, so the lookup's value is fixed
here).  `afterFind`: resume after the database read — throw if no session,
else run `getBrokerConfig`, the factory, `setAccessToken`, and start
`broker.connect()`; the handshake is counted and the fresh id consumed.
`afterConnect`: resume after the handshake — `this.activeBrokers.set(...)`
and return.  A caller NEVER re-checks the cache after `start`, exactly as in
the source. -/
def stepPhase (store : List SessionRec) (now : Nat) (pool : TSState) (hs : Nat)
    (u bt : String) : CallPhase → TSState × Nat × CallPhase
  | .start =>
    match mapGet pool.activeBrokers (sessionKey u bt) with
    | some b => (pool, hs, .done (.ok b))
    | none => (pool, hs, .afterFind (findActiveSession store u bt now))
  | .afterFind none =>
    (pool, hs,
     .done (.error ("Failed to get broker instance: No active " ++ bt ++ " session found")))
  | .afterFind (some sess) =>
    match getBrokerConfig bt with
    | .error e => (pool, hs, .done (.error ("Failed to get broker instance: " ++ e)))
    | .ok cfg =>
      match createBroker pool.nextBrokerId bt cfg with
      | .error e => (pool, hs, .done (.error ("Failed to get broker instance: " ++ e)))
      | .ok b0 =>
        if bt == "zerodha" then
          match (b0.setAccessToken sess.accessToken).connect with
          | (.ok b2, h) =>
            ({ pool with nextBrokerId := pool.nextBrokerId + 1 }, hs + h, .afterConnect b2)
          | (.error e, h) =>
            ({ pool with nextBrokerId := pool.nextBrokerId + 1 }, hs + h,
             .done (.error ("Failed to get broker instance: " ++ e)))
        else
          ({ pool with nextBrokerId := pool.nextBrokerId + 1 }, hs, .afterConnect b0)
  | .afterConnect b =>
    ({ pool with activeBrokers := mapSet pool.activeBrokers (sessionKey u bt) b },
     hs, .done (.ok b))
  | .done r => (pool, hs, .done r)

/-- Resume caller `i` for one segment (resuming a finished caller is a no-op). -/
def stepCallerAt (store : List SessionRec) (now : Nat) (s : ConcState) (i : Nat) :
    ConcState :=
  match s.callers.get? i with
  | none => s
  | some c =>
    let r := stepPhase store now s.pool s.handshakes c.u c.bt c.phase
    { pool := r.1, handshakes := r.2.1,
      callers := s.callers.set i { c with phase := r.2.2 } }

def runSchedule (store : List SessionRec) (now : Nat) (sched : List Nat)
    (s : ConcState) : ConcState :=
  sched.foldl (stepCallerAt store now) s

/-- Projects a finished caller's successful handle id (`none` while running
or when the call threw). -/
def callerResultId (c : ConcCaller) : Option Nat :=
  match c.phase with
  | .done (.ok b) => some b.id
  | _ => none

/-! ### Shutdown timing (`server.js` `gracefulShutdown` lines 147-178 and
`cleanup` lines 277-345)

Discrete time, one unit = one second.  Each cleanup task is wrapped in
`Promise.race([task, reject-after-cleanupTimeout])` with
`cleanupTimeout = 5000` ms, the races are joined by `Promise.allSettled`, and
the whole shutdown is capped by the `setTimeout(force-exit, 8000)` timer. -/

def perTaskTimeoutUnits : Nat := 5

def globalTimeoutUnits : Nat := 8

/-- One cleanup task as scheduled behaviour: when (if ever) it settles, and
whether it fulfills or rejects then. -/
structure CleanupTask where
  completesAt : Option Nat
  fulfills : Bool
deriving Repr, DecidableEq

inductive TaskOutcome where
  | fulfilled : TaskOutcome
  | rejected : TaskOutcome
deriving Repr, DecidableEq

/-- Embeds `Promise.race([task, timeout-rejection])`: the race settles at the
earlier of the task's completion and the timeout, with the timeout rejecting.
Returns (outcome, settle time). -/
def raceWithTimeout (t : CleanupTask) (timeout : Nat) : TaskOutcome × Nat :=
  match t.completesAt with
  | none => (.rejected, timeout)
  | some c =>
    if c ≤ timeout then ((if t.fulfills then .fulfilled else .rejected), c)
    else (.rejected, timeout)

/-- Embeds `Promise.allSettled(cleanupTasks)`: every race's outcome is
recorded individually; nothing short-circuits. -/
def settleAll (ts : List CleanupTask) : List (TaskOutcome × Nat) :=
  ts.map (raceWithTimeout · perTaskTimeoutUnits)

/-- When `allSettled` resolves: the latest settle time among the races. -/
def cleanupDuration (ts : List CleanupTask) : Nat :=
  (settleAll ts).foldr (fun o m => max o.2 m) 0

/-- Embeds `gracefulShutdown`: `await fastify.close()` (taking `closeDuration`,
`none` if it hangs forever), then `cleanup()`, all under the 8-second force
timer which fires `process.exit(1)` unconditionally.  The value is the time
at which the process exits. -/
def shutdownExitTime (closeDuration : Option Nat) (ts : List CleanupTask) : Nat :=
  match closeDuration with
  | none => globalTimeoutUnits
  | some cd => min (cd + cleanupDuration ts) globalTimeoutUnits

/-! ### Process-level behaviour of `GET /api` (`server.js` lines 76-120 and
185-193)

The route handler's first statement is
`new Promise((resolve, reject) => setTimeout(reject, 10));` — built, never
stored, never awaited, rejecting 10 ms after the request is served.  The
process-wide `unhandledRejection` listener routes every such rejection into
`gracefulShutdown`. -/

structure ApiInfo where
  name : String
  version : String
deriving Repr, DecidableEq

structure ProcState where
  shuttingDown : Bool
  pendingRejections : List Nat
deriving Repr, DecidableEq

/-- Embeds the `GET /api` handler: registers the orphan rejection due at
`now + 10` and returns the documentation payload. -/
def serveApiInfo (s : ProcState) (now : Nat) : ProcState × ApiInfo :=
  ({ s with pendingRejections := s.pendingRejections ++ [now + 10] },
   { name := "Trading API", version := "1.0.0" })

/-- Embeds the `process.on('unhandledRejection', ...)` listener calling
`gracefulShutdown` (idempotent through the `shuttingDown` flag). -/
def onUnhandledRejection (s : ProcState) : ProcState :=
  if s.shuttingDown then s else { s with shuttingDown := true }

/-- Runs the event loop forward to wall time `t`: any orphan rejection that
has come due fires the `unhandledRejection` listener. -/
def advanceTo (s : ProcState) (t : Nat) : ProcState :=
  if s.pendingRejections.any (fun d => d ≤ t) then onUnhandledRejection s else s

/-! ## Claim theorems -/

/-! ### C1 — creation concurrency -/

/-- One stored valid session for the key ("u1", "zerodha"). -/
def c1Store : List SessionRec :=
  [{ userId := "u1", brokerType := "zerodha",
     session := { accessToken := "tok1", isActive := true, expiresAt := 100 } }]

/-- Two concurrent callers for the same key against an empty pool. -/
def c1Init : ConcState :=
  { pool := { activeBrokers := [], nextBrokerId := 0 }, handshakes := 0,
    callers := [{ u := "u1", bt := "zerodha", phase := .start },
                { u := "u1", bt := "zerodha", phase := .start }] }

/-- C1 counterexample: under the interleaving where both callers pass the
cache check before either caches, the two concurrent `getBrokerInstance`
calls for the same key perform TWO connect handshakes and the callers end
with references to two DIFFERENT broker instances (object ids 0 and 1), the
second silently overwriting the first in the pool.  There is no per-key
serialization in the source. -/
theorem getBrokerInstance_concurrent_two_handshakes_cex :
    (runSchedule c1Store 0 [0, 1, 0, 1, 0, 1] c1Init).handshakes = 2 ∧
    (runSchedule c1Store 0 [0, 1, 0, 1, 0, 1] c1Init).callers.map callerResultId
      = [some 0, some 1] ∧
    (mapGet (runSchedule c1Store 0 [0, 1, 0, 1, 0, 1] c1Init).pool.activeBrokers
      (sessionKey "u1" "zerodha")).map (·.id) = some 1 := by
  decide

/-- C1 amended: creation is NOT serialized per key; what does hold is that
non-overlapping calls behave as single-flight.  With a valid session and a
cold cache, a completed `getBrokerInstance` performs exactly one handshake,
and a second call that starts after it completes performs none and returns
the very same cached handle. -/
theorem getBrokerInstance_sequential_single_handshake (st : TSState)
    (store : List SessionRec) (now : Nat) (u : String) (sess : Session)
    (hmiss : mapGet st.activeBrokers (sessionKey u "zerodha") = none)
    (hsess : findActiveSession store u "zerodha" now = some sess) :
    ∃ b : ZerodhaBroker,
      getBrokerInstance st store now u "zerodha" =
        (.ok b,
         { activeBrokers := mapSet st.activeBrokers (sessionKey u "zerodha") b,
           nextBrokerId := st.nextBrokerId + 1 }, 1) ∧
      getBrokerInstance (getBrokerInstance st store now u "zerodha").2.1
          store now u "zerodha" =
        (.ok b, (getBrokerInstance st store now u "zerodha").2.1, 0) := by
  have hcfg : getBrokerConfig "zerodha" = .ok ("KITE_API_KEY", "KITE_API_SECRET") := by
    decide
  have hlow : (jsToLower "zerodha" == "zerodha") = true := by decide
  refine ⟨{ id := st.nextBrokerId, apiKey := "KITE_API_KEY",
            apiSecret := "KITE_API_SECRET", isConnected := true, ticker := none,
            accessToken := some sess.accessToken, subscribedInstruments := [] },
          ?_, ?_⟩
  · simp [getBrokerInstance, hmiss, hsess, hcfg, createBroker, hlow,
      ZerodhaBroker.new, ZerodhaBroker.setAccessToken, ZerodhaBroker.connect]
  · have h1 : getBrokerInstance st store now u "zerodha" =
        (.ok { id := st.nextBrokerId, apiKey := "KITE_API_KEY",
               apiSecret := "KITE_API_SECRET", isConnected := true, ticker := none,
               accessToken := some sess.accessToken, subscribedInstruments := [] },
         { activeBrokers := mapSet st.activeBrokers (sessionKey u "zerodha")
             { id := st.nextBrokerId, apiKey := "KITE_API_KEY",
               apiSecret := "KITE_API_SECRET", isConnected := true, ticker := none,
               accessToken := some sess.accessToken, subscribedInstruments := [] },
           nextBrokerId := st.nextBrokerId + 1 }, 1) := by
      simp [getBrokerInstance, hmiss, hsess, hcfg, createBroker, hlow,
        ZerodhaBroker.new, ZerodhaBroker.setAccessToken, ZerodhaBroker.connect]
    rw [h1]
    simp [getBrokerInstance, mapGet_mapSet_self]

/-- Witness for the C1 amended theorem at a concrete cold pool and store. -/
theorem getBrokerInstance_sequential_single_handshake_witness :
    ∃ b : ZerodhaBroker,
      getBrokerInstance { activeBrokers := [], nextBrokerId := 0 } c1Store 0
          "u1" "zerodha" =
        (.ok b,
         { activeBrokers := mapSet [] (sessionKey "u1" "zerodha") b,
           nextBrokerId := 1 }, 1) ∧
      getBrokerInstance (getBrokerInstance { activeBrokers := [], nextBrokerId := 0 }
            c1Store 0 "u1" "zerodha").2.1 c1Store 0 "u1" "zerodha" =
        (.ok b,
         (getBrokerInstance { activeBrokers := [], nextBrokerId := 0 } c1Store 0
            "u1" "zerodha").2.1, 0) :=
  getBrokerInstance_sequential_single_handshake
    { activeBrokers := [], nextBrokerId := 0 } c1Store 0 "u1"
    { accessToken := "tok1", isActive := true, expiresAt := 100 }
    (by decide) (by decide)

/-! ### C2 — NotAuthenticated vs Expired -/

/-- A store whose only session for the key is present but expired
(`expiresAt = 5`, queried at `now = 10`). -/
def c2ExpiredStore : List SessionRec :=
  [{ userId := "u1", brokerType := "zerodha",
     session := { accessToken := "tok", isActive := true, expiresAt := 5 } }]

def c2EmptyPool : TSState := { activeBrokers := [], nextBrokerId := 0 }

/-- C2 counterexample: `getBrokerInstance` produces the IDENTICAL outcome for
an expired session and for no session at all — the single message
"No active zerodha session found" — so there is no distinct `Expired` failure
distinguishable to the caller. -/
theorem getBrokerInstance_expired_same_error_cex :
    getBrokerInstance c2EmptyPool c2ExpiredStore 10 "u1" "zerodha" =
      getBrokerInstance c2EmptyPool [] 10 "u1" "zerodha" ∧
    (getBrokerInstance c2EmptyPool c2ExpiredStore 10 "u1" "zerodha").1 =
      .error "Failed to get broker instance: No active zerodha session found" := by
  decide

/-- C2 amended: whenever no stored session for the key is simultaneously
active and unexpired — whether because none exists, it was marked inactive,
or it is past `expiresAt` — `getBrokerInstance` fails with the one error
"No active {brokerType} session found"; the two spec cases collapse into a
single indistinguishable failure. -/
theorem getBrokerInstance_invalid_session_single_error (st : TSState)
    (store : List SessionRec) (now : Nat) (u bt : String)
    (hmiss : mapGet st.activeBrokers (sessionKey u bt) = none)
    (hinvalid : ¬ sessionValidSpec store u bt now) :
    getBrokerInstance st store now u bt =
      (.error ("Failed to get broker instance: No active " ++ bt ++ " session found"),
       st, 0) := by
  have hnone : findActiveSession store u bt now = none :=
    (findActiveSession_eq_none_iff store u bt now).mpr hinvalid
  simp [getBrokerInstance, hmiss, hnone]

/-- Witness for the C2 amended theorem: the expired-session store. -/
theorem getBrokerInstance_invalid_session_single_error_witness :
    getBrokerInstance c2EmptyPool c2ExpiredStore 10 "u1" "zerodha" =
      (.error ("Failed to get broker instance: No active " ++ "zerodha"
        ++ " session found"), c2EmptyPool, 0) :=
  getBrokerInstance_invalid_session_single_error c2EmptyPool c2ExpiredStore 10
    "u1" "zerodha" (by decide) (by decide)

/-! ### C3 — sweep evicts exactly the invalid handles -/

theorem sweepEntries_no_fail (store : List SessionRec) (now : Nat)
    (l : List (String × ZerodhaBroker)) :
    sweepEntries store now [] l =
      (true, l.filter (fun e =>
        (findActiveSession store (splitKey e.1).1 (splitKey e.1).2 now).isSome)) := by
  induction l with
  | nil => rfl
  | cons e rest ih =>
    obtain ⟨k, b⟩ := e
    rcases h : findActiveSession store (splitKey k).1 (splitKey k).2 now with _ | s
    · simp [sweepEntries, h, List.filter_cons, ih]
    · simp [sweepEntries, h, List.filter_cons, ih]

/-- C3: with every per-handle disconnect succeeding, the sweep returns its
normal success value and the cache afterwards holds exactly the handles whose
decoded key still has a session that is present, active and unexpired in the
original store — every handle whose backing session is missing, inactive or
expired is evicted, and every other handle is kept untouched (same key, same
broker state, same order). -/
theorem sweep_evicts_exactly_invalid (st : TSState) (store : List SessionRec)
    (now : Nat) :
    (tsCleanupExpiredSessions st store now []).1 = some () ∧
    (tsCleanupExpiredSessions st store now []).2.1.activeBrokers =
      st.activeBrokers.filter (fun e =>
        decide (sessionValidSpec store (splitKey e.1).1 (splitKey e.1).2 now)) := by
  have hs := sweepEntries_no_fail (dbCleanupExpiredSessions store now) now
    st.activeBrokers
  refine ⟨by simp [tsCleanupExpiredSessions, hs], ?_⟩
  simp only [tsCleanupExpiredSessions, hs]
  apply List.filter_congr
  intro e _
  have h1 := findActiveSession_isSome_iff (dbCleanupExpiredSessions store now)
    (splitKey e.1).1 (splitKey e.1).2 now
  have h2 := sessionValidSpec_dbCleanup store (splitKey e.1).1 (splitKey e.1).2 now
  by_cases hv : sessionValidSpec store (splitKey e.1).1 (splitKey e.1).2 now
  · rw [decide_eq_true hv]
    exact h1.mpr (h2.mpr hv)
  · rw [decide_eq_false hv]
    exact Bool.eq_false_iff.mpr (fun h => hv (h2.mp (h1.mp h)))

/-! ### C4 — disconnect failures during sweep -/

def c4BrokerA : ZerodhaBroker :=
  { id := 0, apiKey := "k", apiSecret := "s", isConnected := true,
    ticker := some { apiKey := "k", tickerToken := "t" },
    accessToken := some "t", subscribedInstruments := [] }

def c4BrokerB : ZerodhaBroker := { c4BrokerA with id := 1 }

/-- A pool with two cached handles, both of whose sessions are missing
(the store is empty), where the first handle's disconnect throws. -/
def c4Pool : TSState :=
  { activeBrokers := [("a_zerodha", c4BrokerA), ("b_zerodha", c4BrokerB)],
    nextBrokerId := 2 }

/-- C4 counterexample: the failure disconnecting the first handle prevents
the second (also session-less) handle from being checked or evicted — both
stay cached — and nothing is collected or reported: the sweep returns the
swallowed-error value (`undefined`), not a failure summary. -/
theorem sweep_disconnect_failure_aborts_cex :
    (tsCleanupExpiredSessions c4Pool [] 0 ["a_zerodha"]).1 = none ∧
    (tsCleanupExpiredSessions c4Pool [] 0 ["a_zerodha"]).2.1.activeBrokers =
      [("a_zerodha", c4BrokerA), ("b_zerodha", c4BrokerB)] := by
  decide

theorem sweepEntries_abort (store : List SessionRec) (now : Nat)
    (failKeys : List String) (pre : List (String × ZerodhaBroker)) (k : String)
    (b : ZerodhaBroker) (rest : List (String × ZerodhaBroker))
    (hpre : ∀ e ∈ pre,
      (findActiveSession store (splitKey e.1).1 (splitKey e.1).2 now).isSome = true)
    (hk : findActiveSession store (splitKey k).1 (splitKey k).2 now = none)
    (hfail : k ∈ failKeys) :
    sweepEntries store now failKeys (pre ++ (k, b) :: rest) =
      (false, pre ++ (k, b) :: rest) := by
  induction pre with
  | nil => simp [sweepEntries, hk, hfail]
  | cons e pre2 ih =>
    obtain ⟨k2, b2⟩ := e
    have he := hpre (k2, b2) (List.mem_cons_self _ _)
    rcases hs : findActiveSession store (splitKey k2).1 (splitKey k2).2 now with _ | s
    · rw [hs] at he; simp at he
    · have ih2 := ih (fun e2 h2 => hpre e2 (List.mem_cons_of_mem _ h2))
      simp [sweepEntries, hs, ih2]

/-- C4 amended: a failure while disconnecting one handle ABORTS the sweep:
the failing handle and every handle after it stay cached unchecked, and the
error is logged and swallowed rather than collected — the sweep returns the
`undefined` value with no per-key failure report.  (Handles before the
failing one that were valid are kept as usual.) -/
theorem sweep_disconnect_failure_aborts (store : List SessionRec) (now : Nat)
    (failKeys : List String) (pre : List (String × ZerodhaBroker)) (k : String)
    (b : ZerodhaBroker) (rest : List (String × ZerodhaBroker)) (nid : Nat)
    (hpre : ∀ e ∈ pre,
      sessionValidSpec (dbCleanupExpiredSessions store now)
        (splitKey e.1).1 (splitKey e.1).2 now)
    (hk : ¬ sessionValidSpec (dbCleanupExpiredSessions store now)
      (splitKey k).1 (splitKey k).2 now)
    (hfail : k ∈ failKeys) :
    tsCleanupExpiredSessions
        { activeBrokers := pre ++ (k, b) :: rest, nextBrokerId := nid }
        store now failKeys =
      (none, { activeBrokers := pre ++ (k, b) :: rest, nextBrokerId := nid },
       dbCleanupExpiredSessions store now) := by
  have habort := sweepEntries_abort (dbCleanupExpiredSessions store now) now
    failKeys pre k b rest
    (fun e he => (findActiveSession_isSome_iff _ _ _ _).mpr (hpre e he))
    ((findActiveSession_eq_none_iff _ _ _ _).mpr hk) hfail
  simp [tsCleanupExpiredSessions, habort]

/-- Witness for the C4 amended theorem: the two-handle pool with the first
disconnect failing. -/
theorem sweep_disconnect_failure_aborts_witness :
    tsCleanupExpiredSessions
        { activeBrokers := [] ++ ("a_zerodha", c4BrokerA) :: [("b_zerodha", c4BrokerB)],
          nextBrokerId := 2 } [] 0 ["a_zerodha"] =
      (none,
       { activeBrokers := [] ++ ("a_zerodha", c4BrokerA) :: [("b_zerodha", c4BrokerB)],
         nextBrokerId := 2 },
       dbCleanupExpiredSessions [] 0) :=
  sweep_disconnect_failure_aborts [] 0 ["a_zerodha"] [] "a_zerodha" c4BrokerA
    [("b_zerodha", c4BrokerB)] 2 (by simp) (by decide) (by decide)

/-! ### C5 — order validation before dispatch -/

/-- An otherwise-complete order whose transaction type is the invalid "HOLD". -/
def holdOrder : OrderParams :=
  { variety := some "regular", exchange := some "NSE",
    tradingsymbol := some "INFY", transaction_type := some "HOLD",
    quantity := some 10, product := some "CNC", order_type := some "MARKET" }

/-- An otherwise-complete order with `quantity` absent. -/
def noQtyOrder : OrderParams :=
  { variety := some "regular", exchange := some "NSE",
    tradingsymbol := some "INFY", transaction_type := some "BUY",
    quantity := none, product := some "CNC", order_type := some "MARKET" }

/-- A store with one valid session for ("u1", "zerodha"), for the
cold-cache `placeOrder` scenario. -/
def c5Store : List SessionRec :=
  [{ userId := "u1", brokerType := "zerodha",
     session := { accessToken := "tok", isActive := true, expiresAt := 100 } }]

def c5ColdPool : TSState := { activeBrokers := [], nextBrokerId := 0 }

/-- C5 counterexample: `placeOrder` with the invalid
`transactionType = "HOLD"` against a cold cache and a valid session DOES
make a network call before the violation is detected — `getBrokerInstance`
runs first and performs one connect handshake (`kc.getProfile()` on the
wire), and only then does `validateOrderParams` reject the order.  "No
network call is made" / "zero remote calls" is therefore false as stated. -/
theorem placeOrder_cold_cache_handshake_cex :
    validateOrderParams "zerodha" holdOrder =
      some "Invalid transaction_type. Must be one of: BUY, SELL" ∧
    (tsPlaceOrder c5ColdPool c5Store 0 "u1" "zerodha" holdOrder).1 =
      .error ("Failed to place order: "
        ++ "Invalid transaction_type. Must be one of: BUY, SELL") ∧
    (tsPlaceOrder c5ColdPool c5Store 0 "u1" "zerodha" holdOrder).2.2.1 = 1 := by
  decide

/-- C5 amended: `placeOrder` validates before any ORDER dispatch — a record
rejected by the validator never reaches the remote order endpoint (zero
order dispatches, whatever the pool and store state) and, once a handle is
obtained, the failure carries the validator's message naming the offending
field.  But validation runs only after `getBrokerInstance`: with the handle
already cached the call makes zero network calls of any kind, while on a
cold cache with a valid session one connect handshake is performed before
the violation is detected.  In particular `transactionType = "HOLD"` is
rejected naming `transaction_type`, and a missing `quantity` is rejected
naming `quantity`. -/
theorem placeOrder_rejects_before_dispatch (st : TSState)
    (store : List SessionRec) (now : Nat) (u : String) (p : OrderParams)
    (msg : String)
    (hbad : validateOrderParams "zerodha" p = some msg) :
    (tsPlaceOrder st store now u "zerodha" p).2.2.2 = 0 ∧
    (∀ b : ZerodhaBroker,
      mapGet st.activeBrokers (sessionKey u "zerodha") = some b →
      tsPlaceOrder st store now u "zerodha" p =
        (.error ("Failed to place order: " ++ msg), st, 0, 0)) ∧
    (mapGet st.activeBrokers (sessionKey u "zerodha") = none →
      ∀ sess : Session, findActiveSession store u "zerodha" now = some sess →
        (tsPlaceOrder st store now u "zerodha" p).1 =
          .error ("Failed to place order: " ++ msg) ∧
        (tsPlaceOrder st store now u "zerodha" p).2.2.1 = 1) ∧
    validateOrderParams "zerodha" holdOrder =
      some "Invalid transaction_type. Must be one of: BUY, SELL" ∧
    validateOrderParams "zerodha" noQtyOrder =
      some "Missing required field: quantity" := by
  have hcfg : getBrokerConfig "zerodha" = .ok ("KITE_API_KEY", "KITE_API_SECRET") := by
    decide
  have hlow : (jsToLower "zerodha" == "zerodha") = true := by decide
  refine ⟨?_, ?_, ?_, by decide, by decide⟩
  · rcases hg : getBrokerInstance st store now u "zerodha" with ⟨res, st', hs⟩
    rcases res with e | b
    · simp [tsPlaceOrder, hg]
    · simp [tsPlaceOrder, hg, hbad]
  · intro b hcached
    simp [tsPlaceOrder, getBrokerInstance, hcached, hbad]
  · intro hmiss sess hsess
    constructor <;>
      simp [tsPlaceOrder, getBrokerInstance, hmiss, hsess, hcfg, createBroker,
        hlow, ZerodhaBroker.new, ZerodhaBroker.setAccessToken,
        ZerodhaBroker.connect, hbad]

def c5Broker : ZerodhaBroker :=
  { id := 0, apiKey := "k", apiSecret := "s", isConnected := true,
    ticker := none, accessToken := some "t", subscribedInstruments := [] }

def c5Pool : TSState := { activeBrokers := [("u1_zerodha", c5Broker)], nextBrokerId := 1 }

/-- Witness for the C5 amended theorem: the "HOLD" order against a pool with
a cached connected handle. -/
theorem placeOrder_rejects_before_dispatch_witness :
    (tsPlaceOrder c5Pool [] 0 "u1" "zerodha" holdOrder).2.2.2 = 0 ∧
    (∀ b : ZerodhaBroker,
      mapGet c5Pool.activeBrokers (sessionKey "u1" "zerodha") = some b →
      tsPlaceOrder c5Pool [] 0 "u1" "zerodha" holdOrder =
        (.error ("Failed to place order: "
          ++ "Invalid transaction_type. Must be one of: BUY, SELL"), c5Pool, 0, 0)) ∧
    (mapGet c5Pool.activeBrokers (sessionKey "u1" "zerodha") = none →
      ∀ sess : Session, findActiveSession [] "u1" "zerodha" 0 = some sess →
        (tsPlaceOrder c5Pool [] 0 "u1" "zerodha" holdOrder).1 =
          .error ("Failed to place order: "
            ++ "Invalid transaction_type. Must be one of: BUY, SELL") ∧
        (tsPlaceOrder c5Pool [] 0 "u1" "zerodha" holdOrder).2.2.1 = 1) ∧
    validateOrderParams "zerodha" holdOrder =
      some "Invalid transaction_type. Must be one of: BUY, SELL" ∧
    validateOrderParams "zerodha" noQtyOrder =
      some "Missing required field: quantity" :=
  placeOrder_rejects_before_dispatch c5Pool [] 0 "u1" holdOrder
    "Invalid transaction_type. Must be one of: BUY, SELL" (by decide)

/-! ### C6 — disconnect idempotence and the ticker release -/

def c6Broker : ZerodhaBroker :=
  { id := 0, apiKey := "k", apiSecret := "s", isConnected := true,
    ticker := some { apiKey := "k", tickerToken := "t" },
    accessToken := some "t", subscribedInstruments := [1] }

/-- C6 counterexample: when the underlying ticker disconnect call errors,
`disconnect()` THROWS the wrapped error (instead of logging it and
succeeding) and the streaming sub-channel is NOT released — `this.ticker`
is still set on the exit path, because the `catch` rethrows before the
`this.ticker = null` line is reached. -/
theorem disconnect_ticker_error_propagates_cex :
    (c6Broker.disconnect true).1 =
      .error "Failed to disconnect from Zerodha: ticker disconnect failed" ∧
    (c6Broker.disconnect true).2.ticker =
      some { apiKey := "k", tickerToken := "t" } := by
  decide

/-- C6 amended: `disconnect()` succeeds, releases the ticker, and is
idempotent whenever no ticker is present (in particular for an
already-disconnected instance) or the underlying ticker disconnect does not
error; a second disconnect of the resulting state is a no-op success under
any ticker behaviour.  When the underlying ticker disconnect errors, however,
the call propagates the wrapped error and retains the ticker. -/
theorem disconnect_idempotent_when_ticker_ok (b : ZerodhaBroker) (t1 t2 : Bool)
    (h : b.ticker = none ∨ t1 = false) :
    (b.disconnect t1).1 = .ok () ∧
    (b.disconnect t1).2.ticker = none ∧
    (b.disconnect t1).2.disconnect t2 = (.ok (), (b.disconnect t1).2) := by
  obtain ⟨bid, bak, bas, bic, btk, bat, bsi⟩ := b
  rcases h with h | h
  · simp only at h
    subst h
    simp [ZerodhaBroker.disconnect]
  · subst h
    cases btk <;> simp [ZerodhaBroker.disconnect]

/-- Witness for the C6 amended theorem: a connected instance with a live
ticker whose underlying disconnect succeeds, re-disconnected with a throwing
ticker call (vacuous, since the ticker is gone). -/
theorem disconnect_idempotent_when_ticker_ok_witness :
    (c6Broker.disconnect false).1 = .ok () ∧
    (c6Broker.disconnect false).2.ticker = none ∧
    (c6Broker.disconnect false).2.disconnect true =
      (.ok (), (c6Broker.disconnect false).2) :=
  disconnect_idempotent_when_ticker_ok c6Broker false true (Or.inr rfl)

/-! ### C7 — survival of the desired subscription set across replacement -/

/-- The prior connection for the key: token set, stream connected,
subscribed to instruments 1 and 2. -/
def c7Prior : ZerodhaBroker :=
  (((((ZerodhaBroker.new 0 "k" "s").setAccessToken
    "t").connectWebSocket).2.1).subscribeToTicker [1, 2]).2.1

/-- The replacement instance the factory would produce for the same key after
the prior connection is torn down. -/
def c7Replacement : ZerodhaBroker :=
  (ZerodhaBroker.new 1 "KITE_API_KEY" "KITE_API_SECRET").setAccessToken "t"

/-- C7 counterexample: the prior connection's desired set is {1, 2}, yet
after the replacement instance's `connectWebSocket()` succeeds its desired
set is empty and NO wire subscribe batch was issued during the connect — the
desired subscription set does not survive replacement, and nothing
resubscribes the prior set. -/
theorem subscriptions_lost_on_replacement_cex :
    c7Prior.subscribedInstruments = [1, 2] ∧
    (c7Replacement.connectWebSocket).1 = .ok () ∧
    (c7Replacement.connectWebSocket).2.1.subscribedInstruments = [] ∧
    (c7Replacement.connectWebSocket).2.2 = [] := by
  decide

/-- C7 amended: the desired subscription set is per-instance state only.
`connectWebSocket()` preserves the instance's own set and issues no
resubscription batch whatsoever, and a freshly constructed instance starts
with an empty set — so when the pool replaces a BrokerConnection, the new
connection's stream carries nothing until the caller re-issues subscribe. -/
theorem subscriptions_per_instance (b : ZerodhaBroker) (id : Nat)
    (apiKey apiSecret : String) :
    (b.connectWebSocket).2.1.subscribedInstruments = b.subscribedInstruments ∧
    (b.connectWebSocket).2.2 = [] ∧
    (ZerodhaBroker.new id apiKey apiSecret).subscribedInstruments = [] := by
  rcases hb : b.accessToken with _ | tok <;>
    simp [ZerodhaBroker.connectWebSocket, ZerodhaBroker.new, hb]

/-! ### C8 — subscribe while the stream is not connected -/

/-- An authenticated instance whose stream was never connected
(`this.ticker === null`). -/
def c8Disconnected : ZerodhaBroker :=
  (ZerodhaBroker.new 0 "k" "s").setAccessToken "t"

/-- C8 counterexample: `subscribeToTicker([1])` on an instance with no stream
THROWS "WebSocket not connected" and leaves the desired set unchanged — the
ids do not become pending, contradicting the claim that the call succeeds
with the ids left pending. -/
theorem subscribe_not_connected_throws_cex :
    (c8Disconnected.subscribeToTicker [1]).1 = .error "WebSocket not connected" ∧
    (c8Disconnected.subscribeToTicker [1]).2.1 = c8Disconnected := by
  decide

/-- C8 amended: `subscribe(ids)` REQUIRES the stream handle: without it the
call fails with "WebSocket not connected" and the desired set is unchanged;
with it, one wire subscribe batch is issued immediately and the ids are added
to the set, on which duplicate additions are an idempotent no-op (adding a
batch twice equals adding it once). -/
theorem subscribe_requires_stream (b : ZerodhaBroker) (ids s : List Nat) :
    (b.subscribeToTicker ids).1 =
      (if b.ticker.isSome then .ok ids else .error "WebSocket not connected") ∧
    (b.subscribeToTicker ids).2.1.subscribedInstruments =
      (if b.ticker.isSome then addInstruments b.subscribedInstruments ids
       else b.subscribedInstruments) ∧
    (b.subscribeToTicker ids).2.2 = (if b.ticker.isSome then [ids] else []) ∧
    addInstruments (addInstruments s ids) ids = addInstruments s ids := by
  refine ⟨?_, ?_, ?_, addInstruments_idem s ids⟩ <;>
    rcases hb : b.ticker with _ | tk <;>
      simp [ZerodhaBroker.subscribeToTicker, hb]

/-! ### C9 — bounded, partial-failure-tolerant shutdown -/

/-- C9: every per-task race settles within the task's own 5-unit timeout; the
process exits at or before the 8-unit global force timer no matter what the
tasks or the server close do; and in the three-task scenario — task A never
completes (whatever its would-be outcome), task B completes successfully at
1 time unit, task C arbitrary — all three outcomes are recorded individually
by `allSettled`: A's timeout rejection at its own 5-unit bound, B's fulfilled
outcome at time 1 (unaffected by A hanging), and the process still exits at
or before 8 units. -/
theorem shutdown_bounded_and_isolated (fulfillsA : Bool) (c : CleanupTask)
    (closeD : Option Nat) (ts : List CleanupTask) :
    (∀ t ∈ ts, (raceWithTimeout t perTaskTimeoutUnits).2 ≤ perTaskTimeoutUnits) ∧
    shutdownExitTime closeD ts ≤ globalTimeoutUnits ∧
    (settleAll [{ completesAt := none, fulfills := fulfillsA },
                { completesAt := some 1, fulfills := true }, c]).get? 0 =
      some (.rejected, perTaskTimeoutUnits) ∧
    (settleAll [{ completesAt := none, fulfills := fulfillsA },
                { completesAt := some 1, fulfills := true }, c]).get? 1 =
      some (.fulfilled, 1) ∧
    (settleAll [{ completesAt := none, fulfills := fulfillsA },
                { completesAt := some 1, fulfills := true }, c]).length = 3 ∧
    shutdownExitTime (some 0)
        [{ completesAt := none, fulfills := fulfillsA },
         { completesAt := some 1, fulfills := true }, c] ≤ globalTimeoutUnits := by
  refine ⟨?_, ?_, rfl, rfl, rfl, Nat.min_le_right _ _⟩
  · intro t _
    unfold raceWithTimeout
    rcases t.completesAt with _ | ct
    · exact Nat.le_refl _
    · dsimp only
      split
      · split <;> assumption
      · exact Nat.le_refl _
  · rcases closeD with _ | cd
    · exact Nat.le_refl _
    · exact Nat.min_le_right _ _

/-- Witness for C9 at a concrete task list and close duration. -/
theorem shutdown_bounded_and_isolated_witness :
    (∀ t ∈ [({ completesAt := some 9, fulfills := true } : CleanupTask)],
      (raceWithTimeout t perTaskTimeoutUnits).2 ≤ perTaskTimeoutUnits) ∧
    shutdownExitTime none [{ completesAt := some 9, fulfills := true }] ≤
      globalTimeoutUnits ∧
    (settleAll [{ completesAt := none, fulfills := false },
                { completesAt := some 1, fulfills := true },
                { completesAt := some 3, fulfills := false }]).get? 0 =
      some (.rejected, perTaskTimeoutUnits) ∧
    (settleAll [{ completesAt := none, fulfills := false },
                { completesAt := some 1, fulfills := true },
                { completesAt := some 3, fulfills := false }]).get? 1 =
      some (.fulfilled, 1) ∧
    (settleAll [{ completesAt := none, fulfills := false },
                { completesAt := some 1, fulfills := true },
                { completesAt := some 3, fulfills := false }]).length = 3 ∧
    shutdownExitTime (some 0)
        [{ completesAt := none, fulfills := false },
         { completesAt := some 1, fulfills := true },
         { completesAt := some 3, fulfills := false }] ≤ globalTimeoutUnits :=
  shutdown_bounded_and_isolated false { completesAt := some 3, fulfills := false }
    none [{ completesAt := some 9, fulfills := true }]

/-! ### C10 — GET /api starts a process shutdown -/

/-- C10: a single `GET /api` request served at time `now` succeeds (the
documentation payload is returned) yet leaves an orphan rejection due at
`now + 10`; once the event loop reaches any time `t` past it, the
`unhandledRejection` listener has routed the process into the
graceful-shutdown path (`shuttingDown = true`), and the shutdown machinery
then exits the process within the 8-unit global cap regardless of how the
cleanup tasks behave. -/
theorem api_route_triggers_shutdown (s : ProcState) (now t : Nat)
    (h : now + 10 ≤ t) (closeD : Option Nat) (ts : List CleanupTask) :
    (serveApiInfo s now).2 = { name := "Trading API", version := "1.0.0" } ∧
    (advanceTo (serveApiInfo s now).1 t).shuttingDown = true ∧
    shutdownExitTime closeD ts ≤ globalTimeoutUnits := by
  refine ⟨rfl, ?_, ?_⟩
  · have hdue : ((serveApiInfo s now).1.pendingRejections.any
        (fun d => decide (d ≤ t))) = true := by
      simp only [serveApiInfo, List.any_append, List.any_cons, List.any_nil,
        Bool.or_false, Bool.or_eq_true, decide_eq_true_eq]
      exact Or.inr h
    unfold advanceTo
    rw [hdue]
    simp only [if_true, onUnhandledRejection]
    rcases hsd : s.shuttingDown with _ | _
    · simp [serveApiInfo, hsd]
    · simp [serveApiInfo, hsd]
  · rcases closeD with _ | cd
    · exact Nat.le_refl _
    · exact Nat.min_le_right _ _

/-- Witness for C10: a fresh running process serving `GET /api` at time 0,
observed at time 10. -/
theorem api_route_triggers_shutdown_witness :
    (serveApiInfo { shuttingDown := false, pendingRejections := [] } 0).2 =
      { name := "Trading API", version := "1.0.0" } ∧
    (advanceTo (serveApiInfo { shuttingDown := false, pendingRejections := [] } 0).1
      10).shuttingDown = true ∧
    shutdownExitTime (some 0) [] ≤ globalTimeoutUnits :=
  api_route_triggers_shutdown { shuttingDown := false, pendingRejections := [] }
    0 10 (by decide) (some 0) []

end TradingBackend
